import Mathlib

/-!
Shallow embedding of the voice-assistant turn controller in src/main.py.

The buffer is modelled as a list of byte values; one microphone frame of
512 signed 16 bit samples contributes 2 * 512 = 1024 bytes per tick, since
struct.pack with format "h" encodes each sample in two bytes.  All the
slicing constants of the source are kept exactly as written there, in
particular the slices measured in frame_length = 512 units.

External collaborators (recorder, porcupine, elevenlabs, logging, the
transcriber and the ChatGPT pipeline) act only through the values they hand
the frame loop; those values are fields of FrameInput.  Side effects that
never touch the session state (playing sounds, printing, recorder start and
stop) are omitted.  Two ghost counters record externally visible calls:
reply_dispatch_count counts chat_gpt.reply dispatches and
detector_stop_calls counts InterruptionDetection.stop invocations made by
the frame loop.
-/

/-- porcupine.frame_length, fixed at 512 samples per frame. -/
def frame_length : ℕ := 512

/-- Source: frame_length * 32 * 20, the byte cap used while waiting for the wakeup word. -/
def buffer_size_when_not_listening : ℕ := frame_length * 32 * 20

/-- Source: frame_length * 32 * 60, the byte cap used in every other state. -/
def buffer_size_on_active_listening : ℕ := frame_length * 32 * 60

/-- Source: silence_threshold = 300. -/
def silence_threshold : ℤ := 300

/-- Source: silence_limit = 0.5 * 32.  The float value is exactly 16; the constant
is written in reduced form so the kernel can evaluate it, and silence_limit_eq
below proves it equal to the source expression. -/
def silence_limit : ℚ := 16

/-- Source: speaking_minimum = 0.3 * 32.  The Python float differs from 48 / 5 by
less than 10 ^ (-14); both compare identically against every integer counter,
so the rational value is a faithful model of every comparison in the source.
speaking_minimum_eq below proves it equal to the expression 0.3 * 32. -/
def speaking_minimum : ℚ := mkRat 48 5

/-- Source: silence_time_to_standby = 10 * 32, in reduced form (see
silence_time_to_standby_eq). -/
def silence_time_to_standby : ℚ := 320

theorem silence_limit_eq : silence_limit = (1 / 2) * 32 := by
  norm_num [silence_limit]

theorem speaking_minimum_eq : speaking_minimum = (3 / 10) * 32 := by
  norm_num [speaking_minimum]

theorem silence_time_to_standby_eq : silence_time_to_standby = 10 * 32 := by
  norm_num [silence_time_to_standby]

/-- Source: transcription_flush_step = 1 * 32, local to waiting_for_silence. -/
def transcription_flush_step : ℕ := 1 * 32

/-- Sum of squared sample amplitudes of one frame. -/
def sumSquares (pcm : List ℤ) : ℤ := (pcm.map (fun x => x * x)).sum

/-- Modelled from the spec: lib.utils.calculate_volume is not under src; the spec
describes it as the root mean square of the sample amplitudes of one frame. -/
noncomputable def calculate_volume (pcm : List ℤ) : ℝ :=
  Real.sqrt ((sumSquares pcm : ℝ) / (pcm.length : ℝ))

/-- Embeds AudioRecording.is_silence: rms < silence_threshold.  Stated in the
equivalent integer form sumSquares < threshold ^ 2 * length so that the machine
stays executable; the equivalence with the root mean square comparison is the
content of the C9 theorem below. -/
def is_silence (pcm : List ℤ) : Bool :=
  decide (sumSquares pcm < silence_threshold ^ 2 * (pcm.length : ℤ))

/-- struct.pack with format "h" repeated: each signed 16 bit sample becomes two
bytes (little endian). -/
def pack : List ℤ → List ℤ
  | [] => []
  | x :: rest => x.emod 256 :: x.emod 65536 / 256 :: pack rest

/-- Python slice b[-n:] for n > 0: the last n entries, or all of b when n is at
least its length.  Written as reverse-take-reverse, which equals
l.drop (l.length - n) (theorem takeLast_eq_drop) but keeps term reduction
shallow for the elaborator. -/
def takeLast (n : ℕ) (l : List ℤ) : List ℤ := (l.reverse.take n).reverse

/-- Python str.strip with no argument: remove whitespace from both ends. -/
def strip (t : String) : String :=
  String.mk (((t.toList.dropWhile Char.isWhitespace).reverse.dropWhile Char.isWhitespace).reverse)

/-- Message roles used by the conversation log. -/
inductive Role
  | user
  | assistant
  | system
deriving DecidableEq, Repr

/-- One conversation entry. -/
structure Message where
  role : Role
  content : String
deriving DecidableEq, Repr

/-- Modelled from the spec: lib.chatgpt.initial_message is not under src; the spec
says the conversation is seeded with one system message.  Its text is irrelevant
to every claim. -/
def initial_message : Message := ⟨Role.system, "initial"⟩

/-- The four values of the RecordingState literal type. -/
inductive RecordingState
  | waiting_for_wakeup
  | waiting_for_silence
  | start_reply
  | replying
deriving DecidableEq, Repr

/-- Modelled from the spec: lib.interruption_detection.InterruptionDetection is not
under src.  The spec gives it pause_for, start_reply_interruption_check, stop and
is_done; is_done becomes true once the reply audio has ended, which the frame loop
signals by calling stop on the reply_audio_ended event. -/
structure InterruptionDetection where
  paused_frames : ℕ
  started : Bool
  stopped : Bool
deriving DecidableEq, Repr

/-- Modelled from the spec: a fresh detector, created on entering replying. -/
def InterruptionDetection.new : InterruptionDetection :=
  ⟨0, false, false⟩

/-- Modelled from the spec: suppress interruption evaluation for n ticks. -/
def InterruptionDetection.pause_for (d : InterruptionDetection) (n : ℕ) : InterruptionDetection :=
  { d with paused_frames := n }

/-- Modelled from the spec: begin evaluating frames against the playing reply. -/
def InterruptionDetection.start_reply_interruption_check (d : InterruptionDetection) : InterruptionDetection :=
  { d with started := true }

/-- Modelled from the spec: release detector resources; idempotent. -/
def InterruptionDetection.stop (d : InterruptionDetection) : InterruptionDetection :=
  { d with stopped := true }

/-- Modelled from the spec: true once the reply has finished playing. -/
def InterruptionDetection.is_done (d : InterruptionDetection) : Bool :=
  d.stopped

/-- The event vocabulary of the chat_gpt queue, spelled as in the source
(including the assistent_message spelling). -/
inductive ChatEvent
  | assistent_message (data : Message)
  | play_beep (data : String)
  | reply_audio_started (data : ℕ)
  | reply_audio_ended
deriving DecidableEq, Repr

/-- The per-tick inputs delivered by the external collaborators: the raw frame,
the porcupine wakeup verdict, the finalized transcript that transcribe_and_stop
would return this tick, the pending chat_gpt queue event (none models the Empty
exception), and the check_for_interruption verdict of the external detector. -/
structure FrameInput where
  pcm : List ℤ
  wake_trigger : Bool
  transcription : String
  chat_event : Option ChatEvent
  interrupted : Bool
deriving DecidableEq, Repr

/-- The AudioRecording session state, with the two ghost effect counters. -/
structure AudioRecording where
  state : RecordingState
  conversation : List Message
  silence_frame_count : ℕ
  speaking_frame_count : ℕ
  recording_audio_buffer : List ℤ
  interruption_detection : Option InterruptionDetection
  reply_dispatch_count : ℕ
  detector_stop_calls : ℕ
deriving DecidableEq, Repr

/-- Embeds AudioRecording.reset.  The recorder.start and transcriber.restart calls
touch no session state and are omitted. -/
def AudioRecording.reset (s : AudioRecording) (st : RecordingState) : AudioRecording :=
  let s1 := { s with state := st, silence_frame_count := 0 }
  match st with
  | .waiting_for_silence => { s1 with interruption_detection := none }
  | .replying => { s1 with interruption_detection := some InterruptionDetection.new }
  | _ => { s1 with speaking_frame_count := 0, recording_audio_buffer := [], interruption_detection := none }

/-- Embeds AudioRecording.transcribe_buffer: hand the buffer to the transcriber,
then keep only the last max(frame_length * 32 * 3, 0) bytes. -/
def AudioRecording.transcribe_buffer (s : AudioRecording) : AudioRecording :=
  { s with recording_audio_buffer := takeLast (max (frame_length * 32 * 3) 0) s.recording_audio_buffer }

/-- Embeds AudioRecording.drop_early_recording_audio_frames: when the buffer
exceeds the cap of the current state, drop its first frame_length bytes, once. -/
def AudioRecording.drop_early_recording_audio_frames (s : AudioRecording) : AudioRecording :=
  if s.recording_audio_buffer.length >
      (if s.state = .waiting_for_wakeup then buffer_size_when_not_listening
       else buffer_size_on_active_listening) then
    { s with recording_audio_buffer := s.recording_audio_buffer.drop frame_length }
  else s

/-- Embeds AudioRecording.waiting_for_wakeup: wake_trigger models
porcupine.process(pcm) being nonnegative; the beep is a pure side effect. -/
def AudioRecording.waiting_for_wakeup (s : AudioRecording) (inp : FrameInput) : AudioRecording :=
  if inp.wake_trigger then { s with state := .start_reply } else s

/-- First statement block of AudioRecording.waiting_for_silence: update the two
counters from the VAD verdict, trimming the buffer to its last frame_length * 4
bytes when speech starts after silence. -/
def AudioRecording.wfs_count_phase (s : AudioRecording) (isSil : Bool) : AudioRecording :=
  if isSil then
    if (s.speaking_frame_count : ℚ) < speaking_minimum ∧
        silence_limit * 2 ≤ ((s.silence_frame_count + 1 : ℕ) : ℚ) then
      { s with silence_frame_count := s.silence_frame_count + 1, speaking_frame_count := 0 }
    else
      { s with silence_frame_count := s.silence_frame_count + 1 }
  else
    if s.speaking_frame_count = 0 then
      { s with
        recording_audio_buffer := takeLast (frame_length * 4) s.recording_audio_buffer
        speaking_frame_count := s.speaking_frame_count + 1
        silence_frame_count := 0 }
    else
      { s with speaking_frame_count := s.speaking_frame_count + 1, silence_frame_count := 0 }

/-- Second statement block of AudioRecording.waiting_for_silence: flush the
transcription every transcription_flush_step frames once speech was seen. -/
def AudioRecording.wfs_flush_phase (s : AudioRecording) : AudioRecording :=
  if 0 < s.speaking_frame_count ∧
      (s.silence_frame_count + s.speaking_frame_count) % transcription_flush_step = 0 then
    s.transcribe_buffer
  else s

/-- Third statement block of AudioRecording.waiting_for_silence: when enough
silence follows enough speech, flush and move to start_reply. -/
def AudioRecording.wfs_reply_phase (s : AudioRecording) : AudioRecording :=
  if silence_limit ≤ (s.silence_frame_count : ℚ) ∧
      speaking_minimum ≤ (s.speaking_frame_count : ℚ) then
    { s.transcribe_buffer with state := .start_reply }
  else s

/-- Fourth statement block of AudioRecording.waiting_for_silence: after
silence_time_to_standby silent frames, zero both counters and stand by. -/
def AudioRecording.wfs_standby_phase (s : AudioRecording) : AudioRecording :=
  if silence_time_to_standby ≤ (s.silence_frame_count : ℚ) then
    { s with silence_frame_count := 0, speaking_frame_count := 0, state := .waiting_for_wakeup }
  else s

/-- Embeds AudioRecording.waiting_for_silence as the composition of its four
successive statement blocks. -/
def AudioRecording.waiting_for_silence (s : AudioRecording) (pcm : List ℤ) : AudioRecording :=
  (((s.wfs_count_phase (is_silence pcm)).wfs_flush_phase).wfs_reply_phase).wfs_standby_phase

/-- Embeds the start_reply branch of AudioRecording.next_frame: finalize the
transcript, bail out to waiting_for_silence when it strips to nothing, otherwise
append the user message, keep the last frame_length buffer bytes, dispatch the
reply (counted by the ghost field) and reset into replying. -/
def AudioRecording.start_reply_step (s : AudioRecording) (inp : FrameInput) : AudioRecording :=
  if (strip inp.transcription).length = 0 then
    s.reset .waiting_for_silence
  else
    let s1 := { s with conversation := s.conversation ++ [Message.mk Role.user inp.transcription] }
    let s2 := { s1 with recording_audio_buffer := takeLast frame_length s1.recording_audio_buffer }
    let s3 := { s2 with reply_dispatch_count := s2.reply_dispatch_count + 1 }
    s3.reset .replying

/-- The try block of AudioRecording.replying_loop: consume at most one queue
event (none models the Empty exception), returning the updated session fields
and the updated detector. -/
def AudioRecording.reply_event_phase (s : AudioRecording) (d0 : InterruptionDetection) :
    Option ChatEvent → AudioRecording × InterruptionDetection
  | none => (s, d0)
  | some (.assistent_message m) => ({ s with conversation := s.conversation ++ [m] }, d0)
  | some (.play_beep _) => (s, d0.pause_for 32)
  | some (.reply_audio_started _) =>
      ({ s with silence_frame_count := 0, speaking_frame_count := 0 },
       d0.start_reply_interruption_check)
  | some .reply_audio_ended =>
      ({ s with detector_stop_calls := s.detector_stop_calls + 1 }, d0.stop)

/-- The session after the event phase: the updated fields together with the
updated detector written back. -/
def AudioRecording.reply_apply_event (s : AudioRecording) (d0 : InterruptionDetection)
    (ev : Option ChatEvent) : AudioRecording :=
  { (s.reply_event_phase d0 ev).1 with
    interruption_detection := some (s.reply_event_phase d0 ev).2 }

/-- Embeds AudioRecording.replying_loop: consume at most one queue event, then
exit on is_done, else consult the interruption verdict of the external detector
(the inp.interrupted field models the check_for_interruption return value). -/
def AudioRecording.replying_loop (s : AudioRecording) (inp : FrameInput) : AudioRecording :=
  match s.interruption_detection with
  | none => s
  | some d0 =>
    let s1 := s.reply_apply_event d0 inp.chat_event
    if (s.reply_event_phase d0 inp.chat_event).2.is_done then
      ({ s1 with
        recording_audio_buffer := takeLast (frame_length * 2) s1.recording_audio_buffer
        speaking_frame_count := 0 }).reset .waiting_for_silence
    else
      if inp.interrupted then
        ({ s1 with
          recording_audio_buffer := takeLast (frame_length * 32) s1.recording_audio_buffer
          }).reset .waiting_for_silence
      else s1

/-- The first phase of AudioRecording.next_frame: extend the buffer with the
packed bytes of the frame just read. -/
def AudioRecording.append_frame (s : AudioRecording) (inp : FrameInput) : AudioRecording :=
  { s with recording_audio_buffer := s.recording_audio_buffer ++ pack inp.pcm }

/-- The state dispatch of AudioRecording.next_frame, the if chain of the source. -/
def AudioRecording.dispatch_frame (sb : AudioRecording) (inp : FrameInput) : AudioRecording :=
  if sb.state = .waiting_for_wakeup then sb.waiting_for_wakeup inp
  else if sb.state = .waiting_for_silence then sb.waiting_for_silence inp.pcm
  else if sb.state = .start_reply then sb.start_reply_step inp
  else if sb.state = .replying then sb.replying_loop inp
  else sb

/-- Embeds AudioRecording.next_frame: append the packed frame bytes, enforce the
cap, then dispatch on the state exactly as the if chain of the source does. -/
def AudioRecording.next_frame (s : AudioRecording) (inp : FrameInput) : AudioRecording :=
  ((s.append_frame inp).drop_early_recording_audio_frames).dispatch_frame inp

/-- The session right after AudioRecording.__init__, which ends in
reset("waiting_for_silence"). -/
def initSession : AudioRecording :=
  AudioRecording.reset
    { state := .waiting_for_silence
      conversation := [initial_message]
      silence_frame_count := 0
      speaking_frame_count := 0
      recording_audio_buffer := []
      interruption_detection := none
      reply_dispatch_count := 0
      detector_stop_calls := 0 } .waiting_for_silence

/-- Folding next_frame over a list of tick inputs. -/
def runFrames (s : AudioRecording) (l : List FrameInput) : AudioRecording :=
  l.foldl AudioRecording.next_frame s

/-- The sessions reachable from the initial session by next_frame steps. -/
inductive Reachable : AudioRecording → Prop
  | init : Reachable initSession
  | step {s : AudioRecording} (inp : FrameInput) : Reachable s → Reachable (s.next_frame inp)

/-! Field-preservation lemmas for the buffer-only operations. -/

theorem drop_early_state (s : AudioRecording) :
    (s.drop_early_recording_audio_frames).state = s.state := by
  unfold AudioRecording.drop_early_recording_audio_frames
  split_ifs <;> rfl

theorem drop_early_silence (s : AudioRecording) :
    (s.drop_early_recording_audio_frames).silence_frame_count = s.silence_frame_count := by
  unfold AudioRecording.drop_early_recording_audio_frames
  split_ifs <;> rfl

theorem drop_early_speaking (s : AudioRecording) :
    (s.drop_early_recording_audio_frames).speaking_frame_count = s.speaking_frame_count := by
  unfold AudioRecording.drop_early_recording_audio_frames
  split_ifs <;> rfl

theorem drop_early_conversation (s : AudioRecording) :
    (s.drop_early_recording_audio_frames).conversation = s.conversation := by
  unfold AudioRecording.drop_early_recording_audio_frames
  split_ifs <;> rfl

theorem drop_early_detection (s : AudioRecording) :
    (s.drop_early_recording_audio_frames).interruption_detection = s.interruption_detection := by
  unfold AudioRecording.drop_early_recording_audio_frames
  split_ifs <;> rfl

theorem drop_early_dispatch_count (s : AudioRecording) :
    (s.drop_early_recording_audio_frames).reply_dispatch_count = s.reply_dispatch_count := by
  unfold AudioRecording.drop_early_recording_audio_frames
  split_ifs <;> rfl

theorem drop_early_stop_calls (s : AudioRecording) :
    (s.drop_early_recording_audio_frames).detector_stop_calls = s.detector_stop_calls := by
  unfold AudioRecording.drop_early_recording_audio_frames
  split_ifs <;> rfl

theorem transcribe_buffer_state (s : AudioRecording) :
    (s.transcribe_buffer).state = s.state := by
  unfold AudioRecording.transcribe_buffer
  rfl

theorem transcribe_buffer_silence (s : AudioRecording) :
    (s.transcribe_buffer).silence_frame_count = s.silence_frame_count := by
  unfold AudioRecording.transcribe_buffer
  rfl

theorem transcribe_buffer_speaking (s : AudioRecording) :
    (s.transcribe_buffer).speaking_frame_count = s.speaking_frame_count := by
  unfold AudioRecording.transcribe_buffer
  rfl

/-- Dispatch lemma: in waiting_for_wakeup the dispatch runs waiting_for_wakeup. -/
theorem dispatch_frame_wakeup (sb : AudioRecording) (inp : FrameInput)
    (h : sb.state = .waiting_for_wakeup) :
    sb.dispatch_frame inp = sb.waiting_for_wakeup inp := by
  unfold AudioRecording.dispatch_frame
  simp [h]

/-- Dispatch lemma: in waiting_for_silence the dispatch runs waiting_for_silence. -/
theorem dispatch_frame_wfs (sb : AudioRecording) (inp : FrameInput)
    (h : sb.state = .waiting_for_silence) :
    sb.dispatch_frame inp = sb.waiting_for_silence inp.pcm := by
  unfold AudioRecording.dispatch_frame
  simp [h]

/-- Dispatch lemma: in start_reply the dispatch runs the start_reply branch. -/
theorem dispatch_frame_start_reply (sb : AudioRecording) (inp : FrameInput)
    (h : sb.state = .start_reply) :
    sb.dispatch_frame inp = sb.start_reply_step inp := by
  unfold AudioRecording.dispatch_frame
  simp [h]

/-- Dispatch lemma: in replying the dispatch runs replying_loop. -/
theorem dispatch_frame_replying (sb : AudioRecording) (inp : FrameInput)
    (h : sb.state = .replying) :
    sb.dispatch_frame inp = sb.replying_loop inp := by
  unfold AudioRecording.dispatch_frame
  simp [h]

/-- The buffer phase of next_frame preserves the state. -/
theorem buffered_state (s : AudioRecording) (inp : FrameInput) :
    ((s.append_frame inp).drop_early_recording_audio_frames).state = s.state := by
  rw [drop_early_state]
  rfl

/-- The counter update of wfs_count_phase, abstracted away from the buffer:
from (silence_frame_count, speaking_frame_count) and one VAD verdict to the new
pair of counters. -/
def absCount (sil sp : ℕ) (b : Bool) : ℕ × ℕ :=
  if b then
    if (sp : ℚ) < speaking_minimum ∧ silence_limit * 2 ≤ ((sil + 1 : ℕ) : ℚ) then (sil + 1, 0)
    else (sil + 1, sp)
  else (0, sp + 1)

/-- The state and counter effect of wfs_reply_phase, abstracted away from the
buffer. -/
def absReply (st : RecordingState) (sil sp : ℕ) : RecordingState × ℕ × ℕ :=
  if silence_limit ≤ (sil : ℚ) ∧ speaking_minimum ≤ (sp : ℚ) then
    (RecordingState.start_reply, sil, sp)
  else (st, sil, sp)

/-- The state and counter effect of wfs_standby_phase, abstracted away from the
buffer. -/
def absStandby (st : RecordingState) (sil sp : ℕ) : RecordingState × ℕ × ℕ :=
  if silence_time_to_standby ≤ (sil : ℚ) then (RecordingState.waiting_for_wakeup, 0, 0)
  else (st, sil, sp)

/-- The counter and state logic of one whole waiting_for_silence frame,
abstracted away from the buffer.  States other than waiting_for_silence are left
untouched; the simulation lemmas relate this machine to next_frame only while
the session sits in waiting_for_silence. -/
def absStep (t : RecordingState × ℕ × ℕ) (b : Bool) : RecordingState × ℕ × ℕ :=
  if t.1 = RecordingState.waiting_for_silence then
    let p := absCount t.2.1 t.2.2 b
    let r := absReply t.1 p.1 p.2
    absStandby r.1 r.2.1 r.2.2
  else t

theorem wfs_count_phase_state (s : AudioRecording) (b : Bool) :
    (s.wfs_count_phase b).state = s.state := by
  unfold AudioRecording.wfs_count_phase
  split_ifs <;> rfl

theorem wfs_count_phase_silence (s : AudioRecording) (b : Bool) :
    (s.wfs_count_phase b).silence_frame_count
      = (absCount s.silence_frame_count s.speaking_frame_count b).1 := by
  unfold AudioRecording.wfs_count_phase absCount
  cases b <;> split_ifs <;> rfl

theorem wfs_count_phase_speaking (s : AudioRecording) (b : Bool) :
    (s.wfs_count_phase b).speaking_frame_count
      = (absCount s.silence_frame_count s.speaking_frame_count b).2 := by
  unfold AudioRecording.wfs_count_phase absCount
  cases b <;> split_ifs <;> rfl

theorem wfs_flush_phase_state (s : AudioRecording) :
    (s.wfs_flush_phase).state = s.state := by
  unfold AudioRecording.wfs_flush_phase
  split_ifs
  · exact transcribe_buffer_state s
  · rfl

theorem wfs_flush_phase_silence (s : AudioRecording) :
    (s.wfs_flush_phase).silence_frame_count = s.silence_frame_count := by
  unfold AudioRecording.wfs_flush_phase
  split_ifs
  · exact transcribe_buffer_silence s
  · rfl

theorem wfs_flush_phase_speaking (s : AudioRecording) :
    (s.wfs_flush_phase).speaking_frame_count = s.speaking_frame_count := by
  unfold AudioRecording.wfs_flush_phase
  split_ifs
  · exact transcribe_buffer_speaking s
  · rfl

theorem wfs_reply_phase_state (s : AudioRecording) :
    (s.wfs_reply_phase).state
      = (absReply s.state s.silence_frame_count s.speaking_frame_count).1 := by
  unfold AudioRecording.wfs_reply_phase absReply
  split_ifs <;> rfl

theorem wfs_reply_phase_silence (s : AudioRecording) :
    (s.wfs_reply_phase).silence_frame_count
      = (absReply s.state s.silence_frame_count s.speaking_frame_count).2.1 := by
  unfold AudioRecording.wfs_reply_phase absReply
  split_ifs with hc
  · show s.transcribe_buffer.silence_frame_count
        = (RecordingState.start_reply, s.silence_frame_count, s.speaking_frame_count).2.1
    rw [transcribe_buffer_silence]
  · rfl

theorem wfs_reply_phase_speaking (s : AudioRecording) :
    (s.wfs_reply_phase).speaking_frame_count
      = (absReply s.state s.silence_frame_count s.speaking_frame_count).2.2 := by
  unfold AudioRecording.wfs_reply_phase absReply
  split_ifs with hc
  · show s.transcribe_buffer.speaking_frame_count
        = (RecordingState.start_reply, s.silence_frame_count, s.speaking_frame_count).2.2
    rw [transcribe_buffer_speaking]
  · rfl

theorem wfs_standby_phase_state (s : AudioRecording) :
    (s.wfs_standby_phase).state
      = (absStandby s.state s.silence_frame_count s.speaking_frame_count).1 := by
  unfold AudioRecording.wfs_standby_phase absStandby
  split_ifs <;> rfl

theorem wfs_standby_phase_silence (s : AudioRecording) :
    (s.wfs_standby_phase).silence_frame_count
      = (absStandby s.state s.silence_frame_count s.speaking_frame_count).2.1 := by
  unfold AudioRecording.wfs_standby_phase absStandby
  split_ifs <;> rfl

theorem wfs_standby_phase_speaking (s : AudioRecording) :
    (s.wfs_standby_phase).speaking_frame_count
      = (absStandby s.state s.silence_frame_count s.speaking_frame_count).2.2 := by
  unfold AudioRecording.wfs_standby_phase absStandby
  split_ifs <;> rfl

/-- The projection of one waiting_for_silence call onto (state, counters) agrees
with the abstract machine; the buffer never feeds back into them. -/
theorem waiting_for_silence_sim (s : AudioRecording) (pcm : List ℤ)
    (h : s.state = .waiting_for_silence) :
    ((s.waiting_for_silence pcm).state,
      (s.waiting_for_silence pcm).silence_frame_count,
      (s.waiting_for_silence pcm).speaking_frame_count)
      = absStep (s.state, s.silence_frame_count, s.speaking_frame_count) (is_silence pcm) := by
  unfold AudioRecording.waiting_for_silence absStep
  rw [show ((s.state, s.silence_frame_count, s.speaking_frame_count) :
      RecordingState × ℕ × ℕ).1 = s.state from rfl, h, if_pos rfl]
  rw [wfs_standby_phase_state, wfs_standby_phase_silence, wfs_standby_phase_speaking,
    wfs_reply_phase_state, wfs_reply_phase_silence, wfs_reply_phase_speaking,
    wfs_flush_phase_state, wfs_flush_phase_silence, wfs_flush_phase_speaking,
    wfs_count_phase_state, wfs_count_phase_silence, wfs_count_phase_speaking, h]

/-- takeLast n l is the drop-based Python slice b[-n:]. -/
theorem takeLast_eq_drop (n : ℕ) (l : List ℤ) : takeLast n l = l.drop (l.length - n) := by
  unfold takeLast
  rcases le_or_lt n l.length with h | h
  · rw [List.take_reverse]
    rw [List.reverse_reverse]
  · rw [List.take_of_length_le (by simpa using h.le), List.reverse_reverse,
      Nat.sub_eq_zero_of_le h.le, List.drop_zero]

/-- takeLast keeps at most n entries. -/
theorem takeLast_length (n : ℕ) (l : List ℤ) : (takeLast n l).length = min n l.length := by
  unfold takeLast
  simp

/-- takeLast returns a suffix of its argument. -/
theorem takeLast_suffix (n : ℕ) (l : List ℤ) : takeLast n l <:+ l := by
  unfold takeLast
  have h : l.reverse.take n <+: l.reverse := List.take_prefix n l.reverse
  have h2 := h.reverse
  rwa [List.reverse_reverse] at h2

/-- One packed frame contributes two bytes per sample. -/
theorem pack_length (pcm : List ℤ) : (pack pcm).length = 2 * pcm.length := by
  induction pcm with
  | nil => rfl
  | cons x rest ih =>
    unfold pack
    simp only [List.length_cons, ih]
    omega

theorem append_frame_state (s : AudioRecording) (inp : FrameInput) :
    (s.append_frame inp).state = s.state := rfl

theorem append_frame_silence (s : AudioRecording) (inp : FrameInput) :
    (s.append_frame inp).silence_frame_count = s.silence_frame_count := rfl

theorem append_frame_speaking (s : AudioRecording) (inp : FrameInput) :
    (s.append_frame inp).speaking_frame_count = s.speaking_frame_count := rfl

theorem append_frame_conversation (s : AudioRecording) (inp : FrameInput) :
    (s.append_frame inp).conversation = s.conversation := rfl

theorem append_frame_detection (s : AudioRecording) (inp : FrameInput) :
    (s.append_frame inp).interruption_detection = s.interruption_detection := rfl

theorem append_frame_dispatch_count (s : AudioRecording) (inp : FrameInput) :
    (s.append_frame inp).reply_dispatch_count = s.reply_dispatch_count := rfl

theorem append_frame_stop_calls (s : AudioRecording) (inp : FrameInput) :
    (s.append_frame inp).detector_stop_calls = s.detector_stop_calls := rfl

/-- One next_frame step from waiting_for_silence projects onto the abstract
machine. -/
theorem next_frame_wfs_sim (s : AudioRecording) (inp : FrameInput)
    (h : s.state = .waiting_for_silence) :
    ((s.next_frame inp).state, (s.next_frame inp).silence_frame_count,
      (s.next_frame inp).speaking_frame_count)
      = absStep (s.state, s.silence_frame_count, s.speaking_frame_count)
          (is_silence inp.pcm) := by
  unfold AudioRecording.next_frame
  have hb : ((s.append_frame inp).drop_early_recording_audio_frames).state = s.state :=
    buffered_state s inp
  rw [dispatch_frame_wfs _ _ (by rw [hb, h])]
  rw [waiting_for_silence_sim _ _ (by rw [hb, h])]
  rw [hb, drop_early_silence, drop_early_speaking, append_frame_silence, append_frame_speaking]

/-- Decidable guard for the trace simulation: along the given VAD verdicts the
abstract machine sits in waiting_for_silence at every step where a frame is
still consumed (the state reached after the last frame is unconstrained). -/
def absWfsUntilLast (a : RecordingState × ℕ × ℕ) : List Bool → Bool
  | [] => true
  | b :: bs =>
    decide (a.1 = RecordingState.waiting_for_silence) && absWfsUntilLast (absStep a b) bs

/-- While the abstract machine stays in waiting_for_silence, the (state,
counters) trace of next_frame along a list of frames equals the trace of the
abstract machine along the corresponding VAD verdicts. -/
theorem scanl_states_sim :
    ∀ (inputs : List FrameInput) (s : AudioRecording),
    absWfsUntilLast (s.state, s.silence_frame_count, s.speaking_frame_count)
        (inputs.map (fun i => is_silence i.pcm)) = true →
    (List.scanl AudioRecording.next_frame s inputs).map
        (fun u => (u.state, u.silence_frame_count, u.speaking_frame_count))
      = List.scanl absStep (s.state, s.silence_frame_count, s.speaking_frame_count)
          (inputs.map (fun i => is_silence i.pcm))
  | [], s, _ => by
    simp [List.scanl_nil]
  | i :: rest, s, hstay => by
    rw [List.map_cons] at hstay
    unfold absWfsUntilLast at hstay
    rw [Bool.and_eq_true, decide_eq_true_iff] at hstay
    have h : s.state = RecordingState.waiting_for_silence := hstay.1
    have hsim := next_frame_wfs_sim s i h
    rw [List.map_cons, List.scanl_cons, List.scanl_cons]
    simp only [List.singleton_append, List.map_cons]
    refine congrArg₂ List.cons rfl ?_
    rw [← hsim]
    exact scanl_states_sim rest (s.next_frame i) (by rw [hsim]; exact hstay.2)

/-- A synthetic frame of 512 samples of amplitude 400, classified as speech by
is_silence (its root mean square is 400, above the threshold 300). -/
def speechFrame : FrameInput :=
  { pcm := List.replicate 512 400, wake_trigger := false, transcription := ""
    chat_event := none, interrupted := false }

/-- A synthetic frame of 512 zero samples, classified as silence by is_silence. -/
def silentFrame : FrameInput :=
  { pcm := List.replicate 512 0, wake_trigger := false, transcription := ""
    chat_event := none, interrupted := false }

/-- Ten speech frames (ten is the least frame count meeting speaking_minimum =
9.6) followed by sixteen silence frames (sixteen = silence_limit). -/
def c2Inputs : List FrameInput :=
  List.replicate 10 speechFrame ++ List.replicate 16 silentFrame

set_option maxRecDepth 8000 in
/-- C2: starting from the initial session (state waiting_for_silence, both
counters zero), feeding ten consecutive speech frames and then sixteen
consecutive silence frames produces exactly one transition to start_reply, on
the very frame at which silence_frame_count first reaches silence_limit = 16
(with speaking_frame_count = 10, at least speaking_minimum = 9.6); every
earlier state of the trace is still waiting_for_silence.  The second conjunct
pins the two thresholds. -/
theorem c2_speech_then_silence_single_transition :
    ((List.scanl AudioRecording.next_frame initSession c2Inputs).map
        (fun u => (u.state, u.silence_frame_count, u.speaking_frame_count))
      = [(.waiting_for_silence, 0, 0),
         (.waiting_for_silence, 0, 1), (.waiting_for_silence, 0, 2),
         (.waiting_for_silence, 0, 3), (.waiting_for_silence, 0, 4),
         (.waiting_for_silence, 0, 5), (.waiting_for_silence, 0, 6),
         (.waiting_for_silence, 0, 7), (.waiting_for_silence, 0, 8),
         (.waiting_for_silence, 0, 9), (.waiting_for_silence, 0, 10),
         (.waiting_for_silence, 1, 10), (.waiting_for_silence, 2, 10),
         (.waiting_for_silence, 3, 10), (.waiting_for_silence, 4, 10),
         (.waiting_for_silence, 5, 10), (.waiting_for_silence, 6, 10),
         (.waiting_for_silence, 7, 10), (.waiting_for_silence, 8, 10),
         (.waiting_for_silence, 9, 10), (.waiting_for_silence, 10, 10),
         (.waiting_for_silence, 11, 10), (.waiting_for_silence, 12, 10),
         (.waiting_for_silence, 13, 10), (.waiting_for_silence, 14, 10),
         (.waiting_for_silence, 15, 10), (.start_reply, 16, 10)])
    ∧ silence_limit = ((16 : ℕ) : ℚ)
    ∧ speaking_minimum ≤ ((10 : ℕ) : ℚ) ∧ ¬ speaking_minimum ≤ ((9 : ℕ) : ℚ) := by
  refine ⟨?_, by decide, by decide, by decide⟩
  rw [scanl_states_sim c2Inputs initSession (by decide)]
  decide

theorem reset_wfs_eq (s : AudioRecording) :
    s.reset .waiting_for_silence
      = { s with
          state := .waiting_for_silence
          silence_frame_count := 0
          interruption_detection := none } := rfl

theorem reset_replying_eq (s : AudioRecording) :
    s.reset .replying
      = { s with
          state := .replying
          silence_frame_count := 0
          interruption_detection := some InterruptionDetection.new } := rfl

theorem reset_wakeup_eq (s : AudioRecording) :
    s.reset .waiting_for_wakeup
      = { s with
          state := .waiting_for_wakeup
          silence_frame_count := 0
          speaking_frame_count := 0
          recording_audio_buffer := []
          interruption_detection := none } := rfl

theorem transcribe_buffer_detection (s : AudioRecording) :
    (s.transcribe_buffer).interruption_detection = s.interruption_detection := by
  unfold AudioRecording.transcribe_buffer
  rfl

theorem transcribe_buffer_conversation (s : AudioRecording) :
    (s.transcribe_buffer).conversation = s.conversation := by
  unfold AudioRecording.transcribe_buffer
  rfl

theorem transcribe_buffer_dispatch_count (s : AudioRecording) :
    (s.transcribe_buffer).reply_dispatch_count = s.reply_dispatch_count := by
  unfold AudioRecording.transcribe_buffer
  rfl

theorem transcribe_buffer_stop_calls (s : AudioRecording) :
    (s.transcribe_buffer).detector_stop_calls = s.detector_stop_calls := by
  unfold AudioRecording.transcribe_buffer
  rfl

theorem waiting_for_silence_detection (s : AudioRecording) (pcm : List ℤ) :
    (s.waiting_for_silence pcm).interruption_detection = s.interruption_detection := by
  unfold AudioRecording.waiting_for_silence AudioRecording.wfs_standby_phase
    AudioRecording.wfs_reply_phase AudioRecording.wfs_flush_phase AudioRecording.wfs_count_phase
  split_ifs <;> simp only [transcribe_buffer_detection]

theorem waiting_for_silence_conversation (s : AudioRecording) (pcm : List ℤ) :
    (s.waiting_for_silence pcm).conversation = s.conversation := by
  unfold AudioRecording.waiting_for_silence AudioRecording.wfs_standby_phase
    AudioRecording.wfs_reply_phase AudioRecording.wfs_flush_phase AudioRecording.wfs_count_phase
  split_ifs <;> simp only [transcribe_buffer_conversation]

theorem waiting_for_silence_dispatch_count (s : AudioRecording) (pcm : List ℤ) :
    (s.waiting_for_silence pcm).reply_dispatch_count = s.reply_dispatch_count := by
  unfold AudioRecording.waiting_for_silence AudioRecording.wfs_standby_phase
    AudioRecording.wfs_reply_phase AudioRecording.wfs_flush_phase AudioRecording.wfs_count_phase
  split_ifs <;> simp only [transcribe_buffer_dispatch_count]

theorem waiting_for_silence_stop_calls (s : AudioRecording) (pcm : List ℤ) :
    (s.waiting_for_silence pcm).detector_stop_calls = s.detector_stop_calls := by
  unfold AudioRecording.waiting_for_silence AudioRecording.wfs_standby_phase
    AudioRecording.wfs_reply_phase AudioRecording.wfs_flush_phase AudioRecording.wfs_count_phase
  split_ifs <;> simp only [transcribe_buffer_stop_calls]

/-- The states the abstract machine can reach from waiting_for_silence in one
frame: never replying. -/
theorem absStep_state_cases (t : RecordingState × ℕ × ℕ) (b : Bool) (h : t.1 = .waiting_for_silence) :
    (absStep t b).1 = RecordingState.waiting_for_silence ∨
    (absStep t b).1 = RecordingState.start_reply ∨
    (absStep t b).1 = RecordingState.waiting_for_wakeup := by
  unfold absStep absStandby absReply
  rw [if_pos h]
  dsimp only
  split_ifs <;> simp [h]

/-- The buffer phase of next_frame as one function, for lemma statements. -/
def AudioRecording.buffered (s : AudioRecording) (inp : FrameInput) : AudioRecording :=
  (s.append_frame inp).drop_early_recording_audio_frames

theorem next_frame_eq_dispatch (s : AudioRecording) (inp : FrameInput) :
    s.next_frame inp = (s.buffered inp).dispatch_frame inp := rfl

theorem buffered_state_eq (s : AudioRecording) (inp : FrameInput) :
    (s.buffered inp).state = s.state := buffered_state s inp

theorem buffered_silence (s : AudioRecording) (inp : FrameInput) :
    (s.buffered inp).silence_frame_count = s.silence_frame_count := by
  unfold AudioRecording.buffered
  rw [drop_early_silence, append_frame_silence]

theorem buffered_speaking (s : AudioRecording) (inp : FrameInput) :
    (s.buffered inp).speaking_frame_count = s.speaking_frame_count := by
  unfold AudioRecording.buffered
  rw [drop_early_speaking, append_frame_speaking]

theorem buffered_conversation (s : AudioRecording) (inp : FrameInput) :
    (s.buffered inp).conversation = s.conversation := by
  unfold AudioRecording.buffered
  rw [drop_early_conversation, append_frame_conversation]

theorem buffered_detection (s : AudioRecording) (inp : FrameInput) :
    (s.buffered inp).interruption_detection = s.interruption_detection := by
  unfold AudioRecording.buffered
  rw [drop_early_detection, append_frame_detection]

theorem buffered_dispatch_count (s : AudioRecording) (inp : FrameInput) :
    (s.buffered inp).reply_dispatch_count = s.reply_dispatch_count := by
  unfold AudioRecording.buffered
  rw [drop_early_dispatch_count, append_frame_dispatch_count]

theorem buffered_stop_calls (s : AudioRecording) (inp : FrameInput) :
    (s.buffered inp).detector_stop_calls = s.detector_stop_calls := by
  unfold AudioRecording.buffered
  rw [drop_early_stop_calls, append_frame_stop_calls]

theorem append_frame_buffer (s : AudioRecording) (inp : FrameInput) :
    (s.append_frame inp).recording_audio_buffer = s.recording_audio_buffer ++ pack inp.pcm := rfl

/-- The buffer after the append and cap phase is a suffix of the old buffer
followed by the packed frame. -/
theorem buffered_buffer_suffix (s : AudioRecording) (inp : FrameInput) :
    (s.buffered inp).recording_audio_buffer <:+ s.recording_audio_buffer ++ pack inp.pcm := by
  unfold AudioRecording.buffered AudioRecording.drop_early_recording_audio_frames
  split_ifs <;>
    first
      | (show List.drop frame_length (s.append_frame inp).recording_audio_buffer <:+
            s.recording_audio_buffer ++ pack inp.pcm
         rw [append_frame_buffer]
         exact List.drop_suffix _ _)
      | (show (s.append_frame inp).recording_audio_buffer <:+
            s.recording_audio_buffer ++ pack inp.pcm
         rw [append_frame_buffer])

theorem next_frame_in_wakeup (s : AudioRecording) (inp : FrameInput)
    (h : s.state = .waiting_for_wakeup) :
    s.next_frame inp =
      (if inp.wake_trigger then { s.buffered inp with state := .start_reply }
       else s.buffered inp) := by
  rw [next_frame_eq_dispatch, dispatch_frame_wakeup _ _ (by rw [buffered_state_eq, h])]
  unfold AudioRecording.waiting_for_wakeup
  rfl

theorem next_frame_in_wfs (s : AudioRecording) (inp : FrameInput)
    (h : s.state = .waiting_for_silence) :
    s.next_frame inp = (s.buffered inp).waiting_for_silence inp.pcm := by
  rw [next_frame_eq_dispatch, dispatch_frame_wfs _ _ (by rw [buffered_state_eq, h])]

theorem next_frame_in_start_reply (s : AudioRecording) (inp : FrameInput)
    (h : s.state = .start_reply) :
    s.next_frame inp = (s.buffered inp).start_reply_step inp := by
  rw [next_frame_eq_dispatch, dispatch_frame_start_reply _ _ (by rw [buffered_state_eq, h])]

theorem next_frame_in_replying (s : AudioRecording) (inp : FrameInput)
    (h : s.state = .replying) :
    s.next_frame inp = (s.buffered inp).replying_loop inp := by
  rw [next_frame_eq_dispatch, dispatch_frame_replying _ _ (by rw [buffered_state_eq, h])]

theorem reply_event_phase_state (s : AudioRecording) (d0 : InterruptionDetection)
    (ev : Option ChatEvent) : (s.reply_event_phase d0 ev).1.state = s.state := by
  cases ev with
  | none => rfl
  | some e => cases e <;> rfl

theorem reply_event_phase_buffer (s : AudioRecording) (d0 : InterruptionDetection)
    (ev : Option ChatEvent) :
    (s.reply_event_phase d0 ev).1.recording_audio_buffer = s.recording_audio_buffer := by
  cases ev with
  | none => rfl
  | some e => cases e <;> rfl

theorem reply_event_phase_detection (s : AudioRecording) (d0 : InterruptionDetection)
    (ev : Option ChatEvent) :
    (s.reply_event_phase d0 ev).1.interruption_detection = s.interruption_detection := by
  cases ev with
  | none => rfl
  | some e => cases e <;> rfl

theorem reply_event_phase_dispatch_count (s : AudioRecording) (d0 : InterruptionDetection)
    (ev : Option ChatEvent) :
    (s.reply_event_phase d0 ev).1.reply_dispatch_count = s.reply_dispatch_count := by
  cases ev with
  | none => rfl
  | some e => cases e <;> rfl

/-- The event phase stops the detector exactly on reply_audio_ended. -/
theorem reply_event_phase_stopped (s : AudioRecording) (d0 : InterruptionDetection)
    (ev : Option ChatEvent) :
    (s.reply_event_phase d0 ev).2.stopped
      = (d0.stopped || decide (ev = some ChatEvent.reply_audio_ended)) := by
  cases ev with
  | none => simp [AudioRecording.reply_event_phase]
  | some e =>
    cases e <;>
      simp [AudioRecording.reply_event_phase, InterruptionDetection.pause_for,
        InterruptionDetection.start_reply_interruption_check, InterruptionDetection.stop]

/-- The event phase bumps the ghost stop counter exactly on reply_audio_ended. -/
theorem reply_event_phase_stop_calls (s : AudioRecording) (d0 : InterruptionDetection)
    (ev : Option ChatEvent) :
    (s.reply_event_phase d0 ev).1.detector_stop_calls
      = s.detector_stop_calls + (if ev = some ChatEvent.reply_audio_ended then 1 else 0) := by
  cases ev with
  | none => simp [AudioRecording.reply_event_phase]
  | some e => cases e <;> simp [AudioRecording.reply_event_phase]

/-- The event phase appends to the conversation exactly on assistent_message. -/
theorem reply_event_phase_conversation_length (s : AudioRecording) (d0 : InterruptionDetection)
    (ev : Option ChatEvent) :
    (s.reply_event_phase d0 ev).1.conversation.length
      = s.conversation.length
        + (match ev with
           | some (ChatEvent.assistent_message _) => 1
           | _ => 0) := by
  cases ev with
  | none => simp [AudioRecording.reply_event_phase]
  | some e => cases e <;> simp [AudioRecording.reply_event_phase]

theorem reply_apply_event_state (s : AudioRecording) (d0 : InterruptionDetection)
    (ev : Option ChatEvent) : (s.reply_apply_event d0 ev).state = s.state := by
  unfold AudioRecording.reply_apply_event
  show (s.reply_event_phase d0 ev).1.state = s.state
  exact reply_event_phase_state s d0 ev

theorem reply_apply_event_buffer (s : AudioRecording) (d0 : InterruptionDetection)
    (ev : Option ChatEvent) :
    (s.reply_apply_event d0 ev).recording_audio_buffer = s.recording_audio_buffer := by
  unfold AudioRecording.reply_apply_event
  show (s.reply_event_phase d0 ev).1.recording_audio_buffer = s.recording_audio_buffer
  exact reply_event_phase_buffer s d0 ev

theorem reply_apply_event_detection (s : AudioRecording) (d0 : InterruptionDetection)
    (ev : Option ChatEvent) :
    (s.reply_apply_event d0 ev).interruption_detection
      = some (s.reply_event_phase d0 ev).2 := rfl

theorem reply_apply_event_dispatch_count (s : AudioRecording) (d0 : InterruptionDetection)
    (ev : Option ChatEvent) :
    (s.reply_apply_event d0 ev).reply_dispatch_count = s.reply_dispatch_count := by
  unfold AudioRecording.reply_apply_event
  show (s.reply_event_phase d0 ev).1.reply_dispatch_count = s.reply_dispatch_count
  exact reply_event_phase_dispatch_count s d0 ev

theorem reply_apply_event_stop_calls (s : AudioRecording) (d0 : InterruptionDetection)
    (ev : Option ChatEvent) :
    (s.reply_apply_event d0 ev).detector_stop_calls
      = s.detector_stop_calls + (if ev = some ChatEvent.reply_audio_ended then 1 else 0) := by
  unfold AudioRecording.reply_apply_event
  show (s.reply_event_phase d0 ev).1.detector_stop_calls = s.detector_stop_calls + (if ev = some ChatEvent.reply_audio_ended then 1 else 0)
  exact reply_event_phase_stop_calls s d0 ev

theorem reply_apply_event_conversation_length (s : AudioRecording) (d0 : InterruptionDetection)
    (ev : Option ChatEvent) :
    (s.reply_apply_event d0 ev).conversation.length
      = s.conversation.length
        + (match ev with
           | some (ChatEvent.assistent_message _) => 1
           | _ => 0) := by
  unfold AudioRecording.reply_apply_event
  show (s.reply_event_phase d0 ev).1.conversation.length
      = s.conversation.length
        + (match ev with
           | some (ChatEvent.assistent_message _) => 1
           | _ => 0)
  exact reply_event_phase_conversation_length s d0 ev

theorem replying_loop_none (s : AudioRecording) (inp : FrameInput)
    (hd : s.interruption_detection = none) : s.replying_loop inp = s := by
  unfold AudioRecording.replying_loop
  rw [hd]

theorem replying_loop_some (s : AudioRecording) (inp : FrameInput) (d0 : InterruptionDetection)
    (hd : s.interruption_detection = some d0) :
    s.replying_loop inp =
      (if (s.reply_event_phase d0 inp.chat_event).2.is_done then
        ({ s.reply_apply_event d0 inp.chat_event with
          recording_audio_buffer := takeLast (frame_length * 2)
            (s.reply_apply_event d0 inp.chat_event).recording_audio_buffer
          speaking_frame_count := 0 }).reset .waiting_for_silence
      else
        if inp.interrupted then
          ({ s.reply_apply_event d0 inp.chat_event with
            recording_audio_buffer := takeLast (frame_length * 32)
              (s.reply_apply_event d0 inp.chat_event).recording_audio_buffer
            }).reset .waiting_for_silence
        else s.reply_apply_event d0 inp.chat_event) := by
  unfold AudioRecording.replying_loop
  rw [hd]

/-- The detector invariant: the interruption detector is present exactly in
state replying, and while present it has not been stopped yet (the step that
stops it leaves replying in the same tick). -/
def DetectorInv (s : AudioRecording) : Prop :=
  (s.interruption_detection.isSome ↔ s.state = RecordingState.replying) ∧
  ∀ d, s.interruption_detection = some d → d.stopped = false

theorem detector_none_of_ne_replying (s : AudioRecording) (h : DetectorInv s)
    (hne : s.state ≠ RecordingState.replying) : s.interruption_detection = none := by
  cases hd : s.interruption_detection with
  | none => rfl
  | some d => exact absurd (h.1.mp (by rw [hd]; rfl)) hne

theorem detectorInv_init : DetectorInv initSession := by
  unfold initSession
  rw [reset_wfs_eq]
  refine ⟨by simp, ?_⟩
  intro d hd
  simp at hd

theorem detectorInv_step (s : AudioRecording) (inp : FrameInput) (h : DetectorInv s) :
    DetectorInv (s.next_frame inp) := by
  obtain ⟨h1, h2⟩ := h
  cases hst : s.state with
  | waiting_for_wakeup =>
    have hnone : s.interruption_detection = none :=
      detector_none_of_ne_replying s ⟨h1, h2⟩ (by rw [hst]; decide)
    rw [next_frame_in_wakeup s inp hst]
    split_ifs
    · constructor
      · show ((s.buffered inp).interruption_detection).isSome ↔
          RecordingState.start_reply = RecordingState.replying
        rw [buffered_detection, hnone]
        simp
      · intro d hd
        have hd2 : (s.buffered inp).interruption_detection = some d := hd
        rw [buffered_detection, hnone] at hd2
        cases hd2
    · constructor
      · rw [buffered_detection, hnone, buffered_state_eq, hst]
        simp
      · intro d hd
        rw [buffered_detection, hnone] at hd
        cases hd
  | waiting_for_silence =>
    have hnone : s.interruption_detection = none :=
      detector_none_of_ne_replying s ⟨h1, h2⟩ (by rw [hst]; decide)
    rw [next_frame_in_wfs s inp hst]
    have hb : (s.buffered inp).state = RecordingState.waiting_for_silence := by
      rw [buffered_state_eq, hst]
    have hsim := waiting_for_silence_sim (s.buffered inp) inp.pcm hb
    have hstate : ((s.buffered inp).waiting_for_silence inp.pcm).state
        = (absStep ((s.buffered inp).state, (s.buffered inp).silence_frame_count,
            (s.buffered inp).speaking_frame_count) (is_silence inp.pcm)).1 :=
      congrArg Prod.fst hsim
    have hcases := absStep_state_cases ((s.buffered inp).state,
      (s.buffered inp).silence_frame_count, (s.buffered inp).speaking_frame_count)
      (is_silence inp.pcm) hb
    constructor
    · rw [waiting_for_silence_detection, buffered_detection, hnone, hstate]
      rcases hcases with hc | hc | hc <;> rw [hc] <;> simp
    · intro d hd
      rw [waiting_for_silence_detection, buffered_detection, hnone] at hd
      cases hd
  | start_reply =>
    rw [next_frame_in_start_reply s inp hst]
    unfold AudioRecording.start_reply_step
    split_ifs
    · rw [reset_wfs_eq]
      refine ⟨by simp, ?_⟩
      intro d hd
      simp at hd
    · rw [reset_replying_eq]
      refine ⟨by simp, ?_⟩
      intro d hd
      simp at hd
      rw [← hd]
      rfl
  | replying =>
    obtain ⟨d0, hd⟩ : ∃ d, s.interruption_detection = some d := by
      cases hdd : s.interruption_detection with
      | some d => exact ⟨d, rfl⟩
      | none => exact absurd (h1.mpr hst) (by rw [hdd]; simp)
    rw [next_frame_in_replying s inp hst]
    rw [replying_loop_some _ _ d0 (by rw [buffered_detection, hd])]
    split_ifs with hdone hint
    · rw [reset_wfs_eq]
      refine ⟨by simp, ?_⟩
      intro d hde
      simp at hde
    · rw [reset_wfs_eq]
      refine ⟨by simp, ?_⟩
      intro d hde
      simp at hde
    · constructor
      · rw [reply_apply_event_detection, reply_apply_event_state, buffered_state_eq, hst]
        simp
      · intro d hde
        rw [reply_apply_event_detection] at hde
        have hde2 : ((s.buffered inp).reply_event_phase d0 inp.chat_event).2 = d :=
          Option.some.inj hde
        rw [← hde2]
        unfold InterruptionDetection.is_done at hdone
        exact Bool.not_eq_true _ ▸ (by simpa using hdone)

/-- Every reachable session satisfies the detector invariant. -/
theorem detectorInv_reachable (s : AudioRecording) (h : Reachable s) : DetectorInv s := by
  induction h with
  | init => exact detectorInv_init
  | step inp _ ih => exact detectorInv_step _ inp ih

/-- When the buffer is within the idle cap (the smaller of the two caps), the
cap enforcement does nothing, whatever the state. -/
theorem drop_early_no_drop (s : AudioRecording)
    (h : s.recording_audio_buffer.length ≤ buffer_size_when_not_listening) :
    s.drop_early_recording_audio_frames = s := by
  unfold AudioRecording.drop_early_recording_audio_frames
  rw [if_neg]
  have hc : buffer_size_when_not_listening ≤ buffer_size_on_active_listening := by
    norm_num [buffer_size_when_not_listening, buffer_size_on_active_listening, frame_length]
  split_ifs <;> omega

/-- A transcript made only of whitespace strips to the empty string. -/
theorem strip_length_zero (t : String) (hw : ∀ c ∈ t.toList, c.isWhitespace = true) :
    (strip t).length = 0 := by
  unfold strip
  have h1 : t.toList.dropWhile Char.isWhitespace = [] :=
    List.dropWhile_eq_nil_iff.mpr hw
  rw [h1]
  rfl

/-- C10: every incremental transcription flush (transcribe_buffer, run during
waiting_for_silence) leaves the audio buffer holding at most its last
frame_length * 32 * 3 bytes, and the bytes it retains are a suffix of the
buffer before the flush. -/
theorem c10_transcribe_buffer_keeps_suffix (s : AudioRecording) :
    (s.transcribe_buffer).recording_audio_buffer.length ≤ frame_length * 32 * 3 ∧
    (s.transcribe_buffer).recording_audio_buffer <:+ s.recording_audio_buffer := by
  unfold AudioRecording.transcribe_buffer
  constructor
  · show (takeLast (max (frame_length * 32 * 3) 0) s.recording_audio_buffer).length
      ≤ frame_length * 32 * 3
    rw [takeLast_length]
    exact le_trans (Nat.min_le_left _ _) (le_of_eq (Nat.max_zero _))
  · show takeLast (max (frame_length * 32 * 3) 0) s.recording_audio_buffer <:+
      s.recording_audio_buffer
    exact takeLast_suffix _ _

/-- C9: is_silence is true exactly when the root mean square of the frame, as
computed by the spec-modelled calculate_volume, lies strictly below the fixed
threshold 300.  As a Lean function it is pure and deterministic by
construction. -/
theorem c9_is_silence_iff_rms_below_threshold (pcm : List ℤ) (h : 0 < pcm.length) :
    (is_silence pcm = true ↔ calculate_volume pcm < ((silence_threshold : ℤ) : ℝ)) := by
  unfold is_silence calculate_volume
  rw [decide_eq_true_iff]
  have hn : (0 : ℝ) < (pcm.length : ℝ) := by exact_mod_cast h
  rw [Real.sqrt_lt' (by norm_num [silence_threshold] : (0 : ℝ) < ((silence_threshold : ℤ) : ℝ))]
  rw [div_lt_iff₀ hn]
  constructor <;> intro hx
  · have hx2 : ((sumSquares pcm : ℤ) : ℝ) < ((silence_threshold ^ 2 * pcm.length : ℤ) : ℝ) := by
      exact_mod_cast hx
    push_cast at hx2
    nlinarith [hx2]
  · have hx2 : ((sumSquares pcm : ℤ) : ℝ) < ((silence_threshold ^ 2 * pcm.length : ℤ) : ℝ) := by
      push_cast
      nlinarith [hx]
    exact_mod_cast hx2

/-- C9 witness: the single-sample zero frame is silent, hence its root mean
square is below the threshold. -/
theorem c9_witness :
    0 < ([0] : List ℤ).length ∧
    (is_silence [0] = true ↔ calculate_volume [0] < ((silence_threshold : ℤ) : ℝ)) :=
  ⟨by decide, c9_is_silence_iff_rms_below_threshold [0] (by decide)⟩

/-- C4: when the finalized transcript is empty or whitespace-only, the
start_reply step leaves the conversation untouched, dispatches no reply, and
returns to waiting_for_silence. -/
theorem c4_empty_transcript_is_false_trigger (s : AudioRecording) (inp : FrameInput)
    (hst : s.state = .start_reply)
    (hw : ∀ c ∈ inp.transcription.toList, c.isWhitespace = true) :
    (s.next_frame inp).conversation = s.conversation ∧
    (s.next_frame inp).reply_dispatch_count = s.reply_dispatch_count ∧
    (s.next_frame inp).state = .waiting_for_silence := by
  have hstrip : (strip inp.transcription).length = 0 := strip_length_zero _ hw
  rw [next_frame_in_start_reply s inp hst]
  unfold AudioRecording.start_reply_step
  rw [if_pos hstrip, reset_wfs_eq]
  refine ⟨?_, ?_, rfl⟩
  · show (s.buffered inp).conversation = s.conversation
    exact buffered_conversation s inp
  · show (s.buffered inp).reply_dispatch_count = s.reply_dispatch_count
    exact buffered_dispatch_count s inp

/-- C4 witness: a whitespace-only transcript at start_reply changes neither the
conversation nor the dispatch count and lands in waiting_for_silence. -/
theorem c4_witness :
    (({ initSession with state := RecordingState.start_reply } : AudioRecording).next_frame
        ⟨[0], false, "  ", none, false⟩).conversation
      = ({ initSession with state := RecordingState.start_reply } : AudioRecording).conversation ∧
    (({ initSession with state := RecordingState.start_reply } : AudioRecording).next_frame
        ⟨[0], false, "  ", none, false⟩).reply_dispatch_count
      = ({ initSession with state := RecordingState.start_reply } : AudioRecording).reply_dispatch_count ∧
    (({ initSession with state := RecordingState.start_reply } : AudioRecording).next_frame
        ⟨[0], false, "  ", none, false⟩).state = RecordingState.waiting_for_silence :=
  c4_empty_transcript_is_false_trigger
    { initSession with state := RecordingState.start_reply }
    ⟨[0], false, "  ", none, false⟩ rfl (by decide)

/-- C5: in every session reachable from the initial one by next_frame steps, the
interruption detector is present exactly when the state is replying. -/
theorem c5_detector_iff_replying (s : AudioRecording) (h : Reachable s) :
    s.interruption_detection.isSome ↔ s.state = RecordingState.replying :=
  (detectorInv_reachable s h).1

/-- C5 witness: the initial session (reachable by the empty step sequence). -/
theorem c5_witness :
    initSession.interruption_detection.isSome ↔ initSession.state = RecordingState.replying :=
  c5_detector_iff_replying initSession Reachable.init

/-- A session waiting for the wakeup word whose buffer stands exactly at the
idle byte cap, as it does after 320 frames of idle listening. -/
def c1Session : AudioRecording :=
  { state := .waiting_for_wakeup
    conversation := [initial_message]
    silence_frame_count := 0
    speaking_frame_count := 0
    recording_audio_buffer := List.replicate buffer_size_when_not_listening 0
    interruption_detection := none
    reply_dispatch_count := 0
    detector_stop_calls := 0 }

/-- One silent 512 sample frame that does not trigger the wake word. -/
def c1Input : FrameInput :=
  { pcm := List.replicate 512 0
    wake_trigger := false
    transcription := ""
    chat_event := none
    interrupted := false }

/-- C1 is a code bug: after the frame append, drop_early_recording_audio_frames
drops only frame_length = 512 bytes, which is half of one frame (one frame of
512 samples packs to 2 * frame_length = 1024 bytes), and it drops only once, so
the buffer ends the step above the idle cap and the dropped byte count is not a
multiple of one frame.  Each further frame repeats this, growing the buffer
without bound. -/
theorem c1_cap_violation_and_partial_frame_drop :
    (pack c1Input.pcm).length = 2 * frame_length ∧
    (c1Session.next_frame c1Input).state = RecordingState.waiting_for_wakeup ∧
    (c1Session.next_frame c1Input).recording_audio_buffer.length
      = buffer_size_when_not_listening + frame_length ∧
    buffer_size_when_not_listening
      < (c1Session.next_frame c1Input).recording_audio_buffer.length ∧
    (c1Session.append_frame c1Input).recording_audio_buffer.length
        - (c1Session.next_frame c1Input).recording_audio_buffer.length = frame_length ∧
    ¬ (2 * frame_length ∣ frame_length) := by
  have hpcm : c1Input.pcm = List.replicate 512 0 := rfl
  have hpack : (pack c1Input.pcm).length = 2 * frame_length := by
    rw [hpcm, pack_length, List.length_replicate]
    norm_num [frame_length]
  have happlen : (c1Session.append_frame c1Input).recording_audio_buffer.length
      = buffer_size_when_not_listening + 2 * frame_length := by
    rw [append_frame_buffer, List.length_append, hpack,
      show c1Session.recording_audio_buffer = List.replicate buffer_size_when_not_listening 0
        from rfl, List.length_replicate]
  have hstate : (c1Session.append_frame c1Input).state = RecordingState.waiting_for_wakeup := rfl
  have hbuffered : (c1Session.buffered c1Input).recording_audio_buffer
      = List.drop frame_length (c1Session.append_frame c1Input).recording_audio_buffer := by
    unfold AudioRecording.buffered AudioRecording.drop_early_recording_audio_frames
    rw [if_pos]
    rw [hstate, if_pos rfl, happlen]
    norm_num [buffer_size_when_not_listening, frame_length]
  have hblen : (c1Session.buffered c1Input).recording_audio_buffer.length
      = buffer_size_when_not_listening + frame_length := by
    rw [hbuffered, List.length_drop, happlen]
    norm_num [buffer_size_when_not_listening, frame_length]
  have hnf : c1Session.next_frame c1Input = c1Session.buffered c1Input := by
    rw [next_frame_in_wakeup c1Session c1Input rfl, if_neg]
    rw [show c1Input.wake_trigger = false from rfl]
    exact Bool.false_ne_true
  refine ⟨hpack, ?_, ?_, ?_, ?_, ?_⟩
  · rw [hnf, buffered_state_eq]
    rfl
  · rw [hnf, hblen]
  · rw [hnf, hblen]
    norm_num [buffer_size_when_not_listening, frame_length]
  · rw [hnf, hblen, happlen]
    norm_num [buffer_size_when_not_listening, frame_length]
  · norm_num [frame_length]

/-- A replying session with a fresh detector and a 40000 byte buffer. -/
def c3Session : AudioRecording :=
  { state := .replying
    conversation := [initial_message]
    silence_frame_count := 5
    speaking_frame_count := 12
    recording_audio_buffer := List.replicate 40000 0
    interruption_detection := some InterruptionDetection.new
    reply_dispatch_count := 1
    detector_stop_calls := 0 }

/-- A tick whose pending queue event is an assistant message and whose
interruption check returns true. -/
def c3Input : FrameInput :=
  { pcm := List.replicate 512 0
    wake_trigger := false
    transcription := ""
    chat_event := some (ChatEvent.assistent_message (Message.mk Role.assistant "hi"))
    interrupted := true }

/-- General behavior of a replying step whose interruption check fires and
whose queue event (if any) is not reply_audio_ended: the interruption handling
appends no assistant message beyond the event consumed the same tick, keeps at
most the last frame_length * 32 bytes of the appended buffer as a suffix, and
moves to waiting_for_silence. -/
theorem replying_interrupted_step (s : AudioRecording) (inp : FrameInput)
    (d0 : InterruptionDetection)
    (hst : s.state = .replying)
    (hd : s.interruption_detection = some d0)
    (hstop : d0.stopped = false)
    (hev : inp.chat_event ≠ some ChatEvent.reply_audio_ended)
    (hint : inp.interrupted = true) :
    (s.next_frame inp).state = .waiting_for_silence ∧
    (s.next_frame inp).recording_audio_buffer.length ≤ frame_length * 32 ∧
    (s.next_frame inp).recording_audio_buffer <:+ s.recording_audio_buffer ++ pack inp.pcm ∧
    (s.next_frame inp).conversation.length
      = s.conversation.length
        + (match inp.chat_event with
           | some (ChatEvent.assistent_message _) => 1
           | _ => 0) := by
  have hdone : ((s.buffered inp).reply_event_phase d0 inp.chat_event).2.is_done = false := by
    unfold InterruptionDetection.is_done
    rw [reply_event_phase_stopped, hstop]
    simp [hev]
  rw [next_frame_in_replying s inp hst,
    replying_loop_some _ _ d0 (by rw [buffered_detection, hd]),
    if_neg (by rw [hdone]; exact Bool.false_ne_true), if_pos hint, reset_wfs_eq]
  refine ⟨rfl, ?_, ?_, ?_⟩
  · show (takeLast (frame_length * 32)
        ((s.buffered inp).reply_apply_event d0 inp.chat_event).recording_audio_buffer).length
      ≤ frame_length * 32
    rw [takeLast_length]
    exact Nat.min_le_left _ _
  · show takeLast (frame_length * 32)
        ((s.buffered inp).reply_apply_event d0 inp.chat_event).recording_audio_buffer <:+
      s.recording_audio_buffer ++ pack inp.pcm
    refine List.IsSuffix.trans (takeLast_suffix _ _) ?_
    rw [reply_apply_event_buffer]
    exact buffered_buffer_suffix s inp
  · show ((s.buffered inp).reply_apply_event d0 inp.chat_event).conversation.length
      = s.conversation.length + _
    rw [reply_apply_event_conversation_length, buffered_conversation]

/-- C3 as stated is false: in a replying step whose interruption check returns
true, the step can still append an assistant message (the queue event consumed
earlier in the same tick), and the buffer afterwards holds at most
frame_length * 32 = 16384 bytes, fewer than the 32 frames of 1024 bytes the
claim demands, even though more than 32 full frames were available. -/
theorem c3_counterexample :
    c3Session.state = RecordingState.replying ∧
    c3Input.interrupted = true ∧
    (c3Session.next_frame c3Input).conversation.length
      = c3Session.conversation.length + 1 ∧
    (c3Session.next_frame c3Input).recording_audio_buffer.length ≤ frame_length * 32 ∧
    frame_length * 32 < 32 * (2 * frame_length) ∧
    32 * (2 * frame_length) ≤ (c3Session.recording_audio_buffer ++ pack c3Input.pcm).length ∧
    (c3Session.next_frame c3Input).state = RecordingState.waiting_for_silence := by
  have h := replying_interrupted_step c3Session c3Input InterruptionDetection.new rfl rfl rfl
    (by decide) rfl
  refine ⟨rfl, rfl, ?_, h.2.1, by norm_num [frame_length], ?_, h.1⟩
  · exact h.2.2.2
  · rw [List.length_append,
      show c3Session.recording_audio_buffer = List.replicate 40000 0 from rfl,
      show c3Input.pcm = List.replicate 512 0 from rfl, pack_length, List.length_replicate,
      List.length_replicate]
    norm_num [frame_length]

/-- C3 amended: whenever the interruption check of a replying step returns true
(the step not having already exited through is_done), the interruption handling
itself appends nothing — the conversation grows exactly by the assistant
message the same tick may have consumed from the queue — the buffer afterwards
is a suffix of the appended buffer of at most frame_length * 32 = 16384 bytes
(16 whole frames, half a second, not 32 frames), and the state becomes
waiting_for_silence. -/
theorem c3_interruption_amended (s : AudioRecording) (inp : FrameInput)
    (d0 : InterruptionDetection)
    (hst : s.state = .replying)
    (hd : s.interruption_detection = some d0)
    (hstop : d0.stopped = false)
    (hev : inp.chat_event ≠ some ChatEvent.reply_audio_ended)
    (hint : inp.interrupted = true) :
    (s.next_frame inp).state = .waiting_for_silence ∧
    (s.next_frame inp).recording_audio_buffer.length ≤ frame_length * 32 ∧
    (s.next_frame inp).recording_audio_buffer <:+ s.recording_audio_buffer ++ pack inp.pcm ∧
    (s.next_frame inp).conversation.length
      = s.conversation.length
        + (match inp.chat_event with
           | some (ChatEvent.assistent_message _) => 1
           | _ => 0) :=
  replying_interrupted_step s inp d0 hst hd hstop hev hint

/-- C3 amended witness, at the counterexample tick. -/
theorem c3_amended_witness :
    (c3Session.next_frame c3Input).state = RecordingState.waiting_for_silence ∧
    (c3Session.next_frame c3Input).recording_audio_buffer.length ≤ frame_length * 32 ∧
    (c3Session.next_frame c3Input).conversation.length
      = c3Session.conversation.length + 1 :=
  ⟨(c3_interruption_amended c3Session c3Input InterruptionDetection.new rfl rfl rfl
      (by decide) rfl).1,
   (c3_interruption_amended c3Session c3Input InterruptionDetection.new rfl rfl rfl
      (by decide) rfl).2.1,
   (c3_interruption_amended c3Session c3Input InterruptionDetection.new rfl rfl rfl
      (by decide) rfl).2.2.2⟩

/-- The threshold comparisons of the source, restated on the integer counters. -/
theorem speaking_minimum_le_iff (n : ℕ) : speaking_minimum ≤ (n : ℚ) ↔ 10 ≤ n := by
  rw [show speaking_minimum = 48 / 5 from by norm_num [speaking_minimum]]
  rw [div_le_iff₀ (by norm_num : (0 : ℚ) < 5)]
  constructor
  · intro hh
    have hh2 : (48 : ℕ) ≤ n * 5 := by exact_mod_cast hh
    omega
  · intro hh
    have hh2 : (48 : ℕ) ≤ n * 5 := by omega
    exact_mod_cast hh2

theorem lt_speaking_minimum_iff (n : ℕ) : (n : ℚ) < speaking_minimum ↔ n < 10 := by
  rw [← not_le, speaking_minimum_le_iff]
  omega

theorem silence_limit_le_iff (n : ℕ) : silence_limit ≤ (n : ℚ) ↔ 16 ≤ n := by
  rw [show silence_limit = ((16 : ℕ) : ℚ) from by norm_num [silence_limit]]
  exact_mod_cast Iff.rfl

theorem silence_limit_two_le_iff (n : ℕ) : silence_limit * 2 ≤ (n : ℚ) ↔ 32 ≤ n := by
  rw [show silence_limit * 2 = ((32 : ℕ) : ℚ) from by norm_num [silence_limit]]
  exact_mod_cast Iff.rfl

theorem standby_le_iff (n : ℕ) : silence_time_to_standby ≤ (n : ℚ) ↔ 320 ≤ n := by
  rw [show silence_time_to_standby = ((320 : ℕ) : ℚ) from by norm_num [silence_time_to_standby]]
  exact_mod_cast Iff.rfl

theorem speaking_minimum_le_zero_iff : (speaking_minimum ≤ (0 : ℚ)) ↔ False := by
  rw [speaking_minimum_eq]
  norm_num

theorem silence_limit_le_zero_iff : (silence_limit ≤ (0 : ℚ)) ↔ False := by
  rw [silence_limit_eq]
  norm_num

theorem speaking_minimum_le_add_one_iff (n : ℕ) :
    speaking_minimum ≤ (n : ℚ) + 1 ↔ 9 ≤ n := by
  rw [show ((n : ℚ) + 1) = ((n + 1 : ℕ) : ℚ) from by push_cast; ring, speaking_minimum_le_iff]
  omega

theorem silence_limit_le_add_one_iff (n : ℕ) :
    silence_limit ≤ (n : ℚ) + 1 ↔ 15 ≤ n := by
  rw [show ((n : ℚ) + 1) = ((n + 1 : ℕ) : ℚ) from by push_cast; ring, silence_limit_le_iff]
  omega

theorem silence_limit_two_le_add_one_iff (n : ℕ) :
    silence_limit * 2 ≤ (n : ℚ) + 1 ↔ 31 ≤ n := by
  rw [show ((n : ℚ) + 1) = ((n + 1 : ℕ) : ℚ) from by push_cast; ring, silence_limit_two_le_iff]
  omega

theorem standby_le_add_one_iff (n : ℕ) :
    silence_time_to_standby ≤ (n : ℚ) + 1 ↔ 319 ≤ n := by
  rw [show ((n : ℚ) + 1) = ((n + 1 : ℕ) : ℚ) from by push_cast; ring, standby_le_iff]
  omega

/-- In the abstract machine, landing in waiting_for_wakeup zeroes both
counters. -/
theorem absStep_to_wakeup (t : RecordingState × ℕ × ℕ) (b : Bool)
    (h : t.1 = .waiting_for_silence) (hw : (absStep t b).1 = .waiting_for_wakeup) :
    (absStep t b).2.1 = 0 ∧ (absStep t b).2.2 = 0 := by
  unfold absStep absCount absReply absStandby at hw ⊢
  rw [if_pos h] at hw ⊢
  dsimp only at hw ⊢
  split_ifs at hw ⊢ <;> simp_all

set_option linter.unnecessarySeqFocus false in
/-- In the abstract machine, landing in start_reply happens only on a silence
frame, incrementing silence_frame_count and leaving the nonzero
speaking_frame_count untouched. -/
theorem absStep_to_start_reply (t : RecordingState × ℕ × ℕ) (b : Bool)
    (h : t.1 = .waiting_for_silence) (hw : (absStep t b).1 = .start_reply) :
    (absStep t b).2.1 = t.2.1 + 1 ∧ (absStep t b).2.2 = t.2.2 ∧ t.2.2 ≠ 0 := by
  unfold absStep absCount absReply absStandby at hw ⊢
  rw [if_pos h] at hw ⊢
  dsimp only at hw ⊢
  split_ifs at hw ⊢ <;>
    simp_all [speaking_minimum_le_iff, lt_speaking_minimum_iff, silence_limit_le_iff,
      silence_limit_two_le_iff, standby_le_iff, speaking_minimum_le_zero_iff,
      silence_limit_le_zero_iff, speaking_minimum_le_add_one_iff, silence_limit_le_add_one_iff,
      silence_limit_two_le_add_one_iff, standby_le_add_one_iff] <;>
    omega

/-- A replying step that consumes reply_audio_ended stops the detector, zeroes
both counters, drops the detector and returns to waiting_for_silence. -/
theorem replying_is_done_exit (s : AudioRecording) (inp : FrameInput)
    (d0 : InterruptionDetection)
    (hst : s.state = .replying)
    (hd : s.interruption_detection = some d0)
    (hev : inp.chat_event = some ChatEvent.reply_audio_ended) :
    (s.next_frame inp).state = .waiting_for_silence ∧
    (s.next_frame inp).silence_frame_count = 0 ∧
    (s.next_frame inp).speaking_frame_count = 0 ∧
    (s.next_frame inp).detector_stop_calls = s.detector_stop_calls + 1 ∧
    (s.next_frame inp).interruption_detection = none := by
  have hdone : ((s.buffered inp).reply_event_phase d0 inp.chat_event).2.is_done = true := by
    unfold InterruptionDetection.is_done
    rw [reply_event_phase_stopped, hev]
    simp
  rw [next_frame_in_replying s inp hst,
    replying_loop_some _ _ d0 (by rw [buffered_detection, hd]), if_pos hdone, reset_wfs_eq]
  refine ⟨rfl, rfl, rfl, ?_, rfl⟩
  show ((s.buffered inp).reply_apply_event d0 inp.chat_event).detector_stop_calls
    = s.detector_stop_calls + 1
  rw [reply_apply_event_stop_calls, buffered_stop_calls, hev]
  rfl

/-- A replying step that consumes no event and whose interruption check fires
zeroes silence_frame_count but leaves speaking_frame_count untouched. -/
theorem replying_interrupted_no_event (s : AudioRecording) (inp : FrameInput)
    (d0 : InterruptionDetection)
    (hst : s.state = .replying)
    (hd : s.interruption_detection = some d0)
    (hstop : d0.stopped = false)
    (hev : inp.chat_event = none)
    (hint : inp.interrupted = true) :
    (s.next_frame inp).state = .waiting_for_silence ∧
    (s.next_frame inp).silence_frame_count = 0 ∧
    (s.next_frame inp).speaking_frame_count = s.speaking_frame_count := by
  have hdone : ((s.buffered inp).reply_event_phase d0 inp.chat_event).2.is_done = false := by
    unfold InterruptionDetection.is_done
    rw [reply_event_phase_stopped, hstop, hev]
    rfl
  rw [next_frame_in_replying s inp hst,
    replying_loop_some _ _ d0 (by rw [buffered_detection, hd]),
    if_neg (by rw [hdone]; exact Bool.false_ne_true), if_pos hint, reset_wfs_eq]
  refine ⟨rfl, rfl, ?_⟩
  show ((s.buffered inp).reply_apply_event d0 inp.chat_event).speaking_frame_count
    = s.speaking_frame_count
  rw [hev]
  show (s.buffered inp).speaking_frame_count = s.speaking_frame_count
  exact buffered_speaking s inp

/-- A replying step that stays in replying never calls stop on the detector. -/
theorem replying_stay_preserves_stop_calls (s : AudioRecording) (inp : FrameInput)
    (h : s.state = .replying) (h2 : (s.next_frame inp).state = .replying) :
    (s.next_frame inp).detector_stop_calls = s.detector_stop_calls := by
  rw [next_frame_in_replying s inp h] at h2 ⊢
  cases hdd : (s.buffered inp).interruption_detection with
  | none =>
    rw [replying_loop_none _ _ hdd]
    exact buffered_stop_calls s inp
  | some d =>
    rw [replying_loop_some _ _ d hdd] at h2 ⊢
    split_ifs at h2 ⊢ with hdone hint
    · rw [reset_wfs_eq] at h2
      exact absurd (show RecordingState.waiting_for_silence = RecordingState.replying from h2)
        (by decide)
    · rw [reset_wfs_eq] at h2
      exact absurd (show RecordingState.waiting_for_silence = RecordingState.replying from h2)
        (by decide)
    · have hnev : inp.chat_event ≠ some ChatEvent.reply_audio_ended := by
        intro hcontra
        apply hdone
        unfold InterruptionDetection.is_done
        rw [reply_event_phase_stopped, hcontra]
        simp
      show ((s.buffered inp).reply_apply_event d inp.chat_event).detector_stop_calls
        = s.detector_stop_calls
      rw [reply_apply_event_stop_calls, buffered_stop_calls, if_neg hnev]
      rfl

/-- A start_reply step (the entry into replying or the bail-out) never calls
stop on the detector. -/
theorem start_reply_preserves_stop_calls (s : AudioRecording) (inp : FrameInput)
    (h : s.state = .start_reply) :
    (s.next_frame inp).detector_stop_calls = s.detector_stop_calls := by
  rw [next_frame_in_start_reply s inp h]
  unfold AudioRecording.start_reply_step
  split_ifs
  · rw [reset_wfs_eq]
    show (s.buffered inp).detector_stop_calls = s.detector_stop_calls
    exact buffered_stop_calls s inp
  · rw [reset_replying_eq]
    show (s.buffered inp).detector_stop_calls = s.detector_stop_calls
    exact buffered_stop_calls s inp

/-- An actively listening session in mid-utterance: ten speech frames seen,
fifteen silence frames, one silence frame away from the reply trigger. -/
def c6Session : AudioRecording :=
  { state := .waiting_for_silence
    conversation := [initial_message]
    silence_frame_count := 15
    speaking_frame_count := 10
    recording_audio_buffer := []
    interruption_detection := none
    reply_dispatch_count := 0
    detector_stop_calls := 0 }

set_option maxRecDepth 8000 in
/-- C6 as stated is false: on the transition away from waiting_for_silence into
start_reply, neither counter is reset to zero — speaking_frame_count keeps its
value 10 and silence_frame_count advances to 16. -/
theorem c6_counterexample :
    c6Session.state = RecordingState.waiting_for_silence ∧
    (c6Session.next_frame silentFrame).state = RecordingState.start_reply ∧
    (c6Session.next_frame silentFrame).speaking_frame_count = 10 ∧
    (c6Session.next_frame silentFrame).silence_frame_count = 16 := by
  have hsim := next_frame_wfs_sim c6Session silentFrame rfl
  have habs : absStep (c6Session.state, c6Session.silence_frame_count,
      c6Session.speaking_frame_count) (is_silence silentFrame.pcm)
      = (RecordingState.start_reply, 16, 10) := by decide
  rw [habs, Prod.mk.injEq, Prod.mk.injEq] at hsim
  exact ⟨rfl, hsim.1, hsim.2.2, hsim.2.1⟩

/-- C6 amended: both counters are zeroed together at the standby transition out
of waiting_for_silence and at the reply_audio_ended (natural completion) exit
from replying; at the transition into start_reply neither counter is reset
(silence_frame_count advances by one and the nonzero speaking_frame_count is
kept); at the interruption exit from replying (shown for a tick that consumes
no queue event) only silence_frame_count is zeroed while speaking_frame_count
keeps its value. -/
theorem c6_counter_reset_amended :
    (∀ (s : AudioRecording) (inp : FrameInput), s.state = .waiting_for_silence →
      (s.next_frame inp).state = .waiting_for_wakeup →
      (s.next_frame inp).silence_frame_count = 0 ∧
      (s.next_frame inp).speaking_frame_count = 0) ∧
    (∀ (s : AudioRecording) (inp : FrameInput), s.state = .waiting_for_silence →
      (s.next_frame inp).state = .start_reply →
      (s.next_frame inp).silence_frame_count = s.silence_frame_count + 1 ∧
      (s.next_frame inp).speaking_frame_count = s.speaking_frame_count ∧
      (s.next_frame inp).speaking_frame_count ≠ 0) ∧
    (∀ (s : AudioRecording) (inp : FrameInput) (d0 : InterruptionDetection),
      s.state = .replying → s.interruption_detection = some d0 →
      inp.chat_event = some ChatEvent.reply_audio_ended →
      (s.next_frame inp).state = .waiting_for_silence ∧
      (s.next_frame inp).silence_frame_count = 0 ∧
      (s.next_frame inp).speaking_frame_count = 0) ∧
    (∀ (s : AudioRecording) (inp : FrameInput) (d0 : InterruptionDetection),
      s.state = .replying → s.interruption_detection = some d0 → d0.stopped = false →
      inp.chat_event = none → inp.interrupted = true →
      (s.next_frame inp).state = .waiting_for_silence ∧
      (s.next_frame inp).silence_frame_count = 0 ∧
      (s.next_frame inp).speaking_frame_count = s.speaking_frame_count) := by
  refine ⟨?_, ?_, ?_, ?_⟩
  · intro s inp h h2
    have hsim := next_frame_wfs_sim s inp h
    have h1 : (s.next_frame inp).state
        = (absStep (s.state, s.silence_frame_count, s.speaking_frame_count)
          (is_silence inp.pcm)).1 := congrArg Prod.fst hsim
    have hsil : (s.next_frame inp).silence_frame_count
        = (absStep (s.state, s.silence_frame_count, s.speaking_frame_count)
          (is_silence inp.pcm)).2.1 := congrArg (fun x => x.2.1) hsim
    have hsp : (s.next_frame inp).speaking_frame_count
        = (absStep (s.state, s.silence_frame_count, s.speaking_frame_count)
          (is_silence inp.pcm)).2.2 := congrArg (fun x => x.2.2) hsim
    have hc := absStep_to_wakeup (s.state, s.silence_frame_count, s.speaking_frame_count)
      (is_silence inp.pcm) h (h1.symm.trans h2)
    exact ⟨hsil.trans hc.1, hsp.trans hc.2⟩
  · intro s inp h h2
    have hsim := next_frame_wfs_sim s inp h
    have h1 : (s.next_frame inp).state
        = (absStep (s.state, s.silence_frame_count, s.speaking_frame_count)
          (is_silence inp.pcm)).1 := congrArg Prod.fst hsim
    have hsil : (s.next_frame inp).silence_frame_count
        = (absStep (s.state, s.silence_frame_count, s.speaking_frame_count)
          (is_silence inp.pcm)).2.1 := congrArg (fun x => x.2.1) hsim
    have hsp : (s.next_frame inp).speaking_frame_count
        = (absStep (s.state, s.silence_frame_count, s.speaking_frame_count)
          (is_silence inp.pcm)).2.2 := congrArg (fun x => x.2.2) hsim
    have hc := absStep_to_start_reply (s.state, s.silence_frame_count, s.speaking_frame_count)
      (is_silence inp.pcm) h (h1.symm.trans h2)
    refine ⟨hsil.trans hc.1, hsp.trans hc.2.1, ?_⟩
    rw [hsp.trans hc.2.1]
    exact hc.2.2
  · intro s inp d0 h hd hev
    have hc := replying_is_done_exit s inp d0 h hd hev
    exact ⟨hc.1, hc.2.1, hc.2.2.1⟩
  · intro s inp d0 h hd hstop hev hint
    exact replying_interrupted_no_event s inp d0 h hd hstop hev hint

/-- A tick during replying that consumes the reply_audio_ended event. -/
def c6EndInput : FrameInput :=
  { pcm := List.replicate 512 0
    wake_trigger := false
    transcription := ""
    chat_event := some ChatEvent.reply_audio_ended
    interrupted := false }

/-- C6 amended witness: the natural-completion exit zeroes both counters. -/
theorem c6_amended_witness :
    (c3Session.next_frame c6EndInput).state = RecordingState.waiting_for_silence ∧
    (c3Session.next_frame c6EndInput).silence_frame_count = 0 ∧
    (c3Session.next_frame c6EndInput).speaking_frame_count = 0 :=
  c6_counter_reset_amended.2.2.1 c3Session c6EndInput InterruptionDetection.new rfl rfl rfl

/-- C7: from any reachable replying session, a tick on which the interruption
detector reports is_done (which, by the detector invariant, happens exactly
when the tick consumes reply_audio_ended and calls stop) moves to
waiting_for_silence with the ghost stop counter bumped exactly once; no
replying tick that stays in replying and no start_reply tick (the episode
entry) ever calls stop, so stop is invoked exactly once over the whole
replying episode. -/
theorem c7_is_done_exit_stops_once (s : AudioRecording) (inp : FrameInput)
    (d0 : InterruptionDetection)
    (hr : Reachable s)
    (hst : s.state = .replying)
    (hd : s.interruption_detection = some d0)
    (hdone : ((s.buffered inp).reply_event_phase d0 inp.chat_event).2.is_done = true) :
    (s.next_frame inp).state = .waiting_for_silence ∧
    (s.next_frame inp).detector_stop_calls = s.detector_stop_calls + 1 ∧
    inp.chat_event = some ChatEvent.reply_audio_ended ∧
    (∀ (s2 : AudioRecording) (inp2 : FrameInput), s2.state = .replying →
      (s2.next_frame inp2).state = .replying →
      (s2.next_frame inp2).detector_stop_calls = s2.detector_stop_calls) ∧
    (∀ (s2 : AudioRecording) (inp2 : FrameInput), s2.state = .start_reply →
      (s2.next_frame inp2).detector_stop_calls = s2.detector_stop_calls) := by
  have hstop : d0.stopped = false := (detectorInv_reachable s hr).2 d0 hd
  have hev : inp.chat_event = some ChatEvent.reply_audio_ended := by
    by_contra hne
    have hfalse : ((s.buffered inp).reply_event_phase d0 inp.chat_event).2.is_done = false := by
      unfold InterruptionDetection.is_done
      rw [reply_event_phase_stopped, hstop]
      simp [hne]
    rw [hfalse] at hdone
    exact Bool.false_ne_true hdone
  have hc := replying_is_done_exit s inp d0 hst hd hev
  exact ⟨hc.1, hc.2.2.2.1, hev, replying_stay_preserves_stop_calls,
    start_reply_preserves_stop_calls⟩

/-- Every session produced by folding next_frame from a reachable one is
reachable. -/
theorem reachable_runFrames : ∀ (l : List FrameInput) (s : AudioRecording),
    Reachable s → Reachable (runFrames s l)
  | [], _, h => h
  | i :: rest, s, h => reachable_runFrames rest (s.next_frame i) (Reachable.step i h)

/-- A single-sample speech frame (amplitude 400). -/
def c7SpeechInput : FrameInput := ⟨[400], false, "", none, false⟩

/-- A single-sample silence frame. -/
def c7SilentInput : FrameInput := ⟨[0], false, "", none, false⟩

/-- The tick that finalizes the utterance with a nonempty transcript. -/
def c7StartInput : FrameInput := ⟨[0], false, "hello", none, false⟩

/-- Ten speech frames, sixteen silence frames, then the start_reply tick: a
concrete path from the initial session into replying. -/
def c7Prefix : List FrameInput :=
  List.replicate 10 c7SpeechInput ++ (List.replicate 16 c7SilentInput ++ [c7StartInput])

/-- The session reached by c7Prefix: replying with a fresh detector. -/
def c7Session : AudioRecording := runFrames initSession c7Prefix

/-- The tick that delivers reply_audio_ended. -/
def c7EndInput : FrameInput := ⟨[0], false, "", some ChatEvent.reply_audio_ended, false⟩

set_option maxRecDepth 8000 in
/-- C7 witness: along the concrete path into replying, the reply_audio_ended
tick exits to waiting_for_silence and bumps the stop counter exactly once. -/
theorem c7_witness :
    (c7Session.next_frame c7EndInput).state = RecordingState.waiting_for_silence ∧
    (c7Session.next_frame c7EndInput).detector_stop_calls
      = c7Session.detector_stop_calls + 1 :=
  ⟨(c7_is_done_exit_stops_once c7Session c7EndInput InterruptionDetection.new
      (reachable_runFrames c7Prefix initSession Reachable.init)
      (by decide) (by decide) (by decide)).1,
   (c7_is_done_exit_stops_once c7Session c7EndInput InterruptionDetection.new
      (reachable_runFrames c7Prefix initSession Reachable.init)
      (by decide) (by decide) (by decide)).2.1⟩

/-- General shape of the non-empty-transcript branch of the start_reply step:
the state becomes replying, the buffer is trimmed to the last frame_length
BYTES of the post-append buffer, the transcript is appended as a user message,
and exactly one reply is dispatched. -/
theorem start_reply_nonempty_step (s : AudioRecording) (inp : FrameInput)
    (hst : s.state = .start_reply)
    (hne : ¬ (strip inp.transcription).length = 0) :
    (s.next_frame inp).state = .replying ∧
    (s.next_frame inp).recording_audio_buffer
      = takeLast frame_length (s.buffered inp).recording_audio_buffer ∧
    (s.next_frame inp).conversation
      = s.conversation ++ [Message.mk Role.user inp.transcription] ∧
    (s.next_frame inp).reply_dispatch_count = s.reply_dispatch_count + 1 := by
  rw [next_frame_in_start_reply s inp hst]
  unfold AudioRecording.start_reply_step
  rw [if_neg hne]
  refine ⟨rfl, rfl, ?_, ?_⟩
  · show (s.buffered inp).conversation ++ [Message.mk Role.user inp.transcription]
      = s.conversation ++ [Message.mk Role.user inp.transcription]
    rw [buffered_conversation]
  · show (s.buffered inp).reply_dispatch_count + 1 = s.reply_dispatch_count + 1
    rw [buffered_dispatch_count]

/-- A start_reply session holding 4096 bytes (two full frames) of audio. -/
def c8Session : AudioRecording :=
  { state := .start_reply
    conversation := [initial_message]
    silence_frame_count := 16
    speaking_frame_count := 10
    recording_audio_buffer := List.replicate 4096 0
    interruption_detection := none
    reply_dispatch_count := 1
    detector_stop_calls := 0 }

/-- The finalizing tick with a nonempty transcript. -/
def c8Input : FrameInput :=
  { pcm := List.replicate 512 0
    wake_trigger := false
    transcription := "hello"
    chat_event := none
    interrupted := false }

/-- C8 counterexample: on the non-empty-transcript branch the buffer entering
replying holds exactly frame_length = 512 bytes, which is neither the 2 frames
(2 * 1024 bytes) of the spec prose nor the 1 frame (1024 bytes) of the spec
table: the source slices by frame_length samples over a byte buffer, keeping
only half a frame. -/
theorem c8_counterexample :
    c8Session.state = RecordingState.start_reply ∧
    ¬ (strip c8Input.transcription).length = 0 ∧
    (c8Session.next_frame c8Input).state = RecordingState.replying ∧
    (c8Session.next_frame c8Input).recording_audio_buffer.length = frame_length ∧
    frame_length ≠ 2 * (2 * frame_length) ∧
    frame_length ≠ 1 * (2 * frame_length) := by
  have h := start_reply_nonempty_step c8Session c8Input rfl (by decide)
  refine ⟨rfl, by decide, h.1, ?_, by norm_num [frame_length], by norm_num [frame_length]⟩
  have hsb : c8Session.recording_audio_buffer = List.replicate 4096 (0 : ℤ) := rfl
  have hpc : c8Input.pcm = List.replicate 512 (0 : ℤ) := rfl
  have hlen : (c8Session.append_frame c8Input).recording_audio_buffer.length = 5120 := by
    rw [append_frame_buffer, List.length_append, pack_length, hsb, hpc,
      List.length_replicate, List.length_replicate]
  have hb : (c8Session.buffered c8Input).recording_audio_buffer.length = 5120 := by
    unfold AudioRecording.buffered
    rw [drop_early_no_drop _ (by
      rw [hlen]
      norm_num [buffer_size_when_not_listening, frame_length])]
    exact hlen
  rw [h.2.1, takeLast_length, hb]
  norm_num [frame_length]

/-- C8 amended: at the transition into replying on the non-empty-transcript
branch, the buffer is trimmed to at most frame_length = 512 bytes (half of one
1024 byte frame), those bytes being a suffix of the pre-step buffer plus the
freshly packed frame, and exactly one reply is dispatched. -/
theorem c8_trim_amended (s : AudioRecording) (inp : FrameInput)
    (hst : s.state = .start_reply)
    (hne : ¬ (strip inp.transcription).length = 0) :
    (s.next_frame inp).state = .replying ∧
    (s.next_frame inp).recording_audio_buffer.length ≤ frame_length ∧
    (s.next_frame inp).recording_audio_buffer
      <:+ s.recording_audio_buffer ++ pack inp.pcm ∧
    (s.next_frame inp).reply_dispatch_count = s.reply_dispatch_count + 1 := by
  have h := start_reply_nonempty_step s inp hst hne
  refine ⟨h.1, ?_, ?_, h.2.2.2⟩
  · rw [h.2.1, takeLast_length]
    exact Nat.min_le_left _ _
  · rw [h.2.1]
    exact (takeLast_suffix _ _).trans (buffered_buffer_suffix s inp)

/-- C8 amended witness: the concrete finalizing tick enters replying and
dispatches one reply. -/
theorem c8_amended_witness :
    (c8Session.next_frame c8Input).state = RecordingState.replying ∧
    (c8Session.next_frame c8Input).reply_dispatch_count
      = c8Session.reply_dispatch_count + 1 :=
  ⟨(c8_trim_amended c8Session c8Input rfl (by decide)).1,
   (c8_trim_amended c8Session c8Input rfl (by decide)).2.2.2⟩
